import Mathlib

/-!
Shallow embedding of the Aptner visitor-vehicle reservation client
(src/aptner_api.py and src/aptner_gui.py).

Calendar dates are modelled as the day count since 0000-03-01 of the
proleptic Gregorian calendar, so that Python's `date + timedelta(days=n)`
is `Nat` addition, `date` comparison is `Nat` comparison, and
`date.weekday()` (Monday = 0) is a residue mod 7.  `datetime.strptime`
with the fixed format `"%Y.%m.%d"` is embedded as an executable parser
with the exact acceptance of CPython's `_strptime` regular expressions
(`%Y` = four digits, `%m`/`%d` = one or two digits in range) followed by
`datetime`'s calendar validation.
-/

/-- Day number of the civil date `y-m-d` (intended for `1 ≤ y`, `1 ≤ m ≤ 12`). -/
def civil (y m d : Nat) : Nat :=
  let y' := if m ≤ 2 then y - 1 else y
  let mp := (m + 9) % 12
  let doy := (153 * mp + 2) / 5 + d - 1
  y' * 365 + y' / 4 - y' / 100 + y' / 400 + doy

/-- Python `date.weekday()`: Monday = 0 … Sunday = 6. -/
def weekday (d : Nat) : Nat := (d + 2) % 7

/-- Inverse of `civil`: day number back to `(year, month, day)`. -/
def civilFromDays (z : Nat) : Nat × Nat × Nat :=
  let era := z / 146097
  let doe := z % 146097
  let yoe := (doe - doe / 1460 + doe / 36524 - doe / 146096) / 365
  let y := yoe + era * 400
  let doy := doe - (365 * yoe + yoe / 4 - yoe / 100)
  let mp := (5 * doy + 2) / 153
  let d := doy - (153 * mp + 2) / 5 + 1
  let m := if mp < 10 then mp + 3 else mp - 9
  (if m ≤ 2 then y + 1 else y, m, d)

/-- Zero-pad a number to `len` digits (as `strftime` does for `%Y`, `%m`, `%d`). -/
def padZeros (len n : Nat) : String :=
  let s := toString n
  (List.replicate (len - s.length) '0').asString ++ s

/-- Python `visit_date.strftime("%Y.%m.%d")`. -/
def dateToStr (dt : Nat) : String :=
  let c := civilFromDays dt
  padZeros 4 c.1 ++ "." ++ padZeros 2 c.2.1 ++ "." ++ padZeros 2 c.2.2

/-- Gregorian leap year. -/
def isLeap (y : Nat) : Bool := (y % 4 == 0 && y % 100 != 0) || y % 400 == 0

/-- Number of days in month `m` of year `y`. -/
def daysInMonth (y m : Nat) : Nat :=
  if m = 2 then (if isLeap y then 29 else 28)
  else if m = 4 ∨ m = 6 ∨ m = 9 ∨ m = 11 then 30 else 31

/-- Split a character list at every `'.'`, the literal separators of the
format `"%Y.%m.%d"` (the behaviour of `str.split` / the compiled format
regex on the pieces between the literal dots). -/
def splitDots : List Char → List (List Char)
  | [] => [[]]
  | c :: cs =>
    match splitDots cs with
    | [] => [[]]
    | g :: gs => if c = '.' then [] :: g :: gs else (c :: g) :: gs

/-- The value of one decimal digit, `none` for a non-digit. -/
def charDigit? (c : Char) : Option Nat :=
  if '0' ≤ c ∧ c ≤ '9' then some (c.toNat - '0'.toNat) else none

/-- Accumulate the decimal value of a digit run. -/
def digitsValAux : List Char → Nat → Option Nat
  | [], acc => some acc
  | c :: cs, acc =>
    match charDigit? c with
    | none => none
    | some d => digitsValAux cs (acc * 10 + d)

/-- The decimal value of a non-empty, all-digit character run. -/
def digitsVal : List Char → Option Nat
  | [] => none
  | cs => digitsValAux cs 0

/-- The `%Y` field of `_strptime`: exactly four digits. -/
def parse4 (cs : List Char) : Option Nat :=
  if cs.length = 4 then digitsVal cs else none

/-- The `%m` / `%d` fields of `_strptime`: one or two digits with value in
`[1, hi]` (the compiled patterns `1[0-2]|0[1-9]|[1-9]` and
`3[01]|[12]\d|0[1-9]|[1-9]` accept exactly those strings). -/
def parse2 (cs : List Char) (hi : Nat) : Option Nat :=
  if cs.length = 0 ∨ 2 < cs.length then none
  else match digitsVal cs with
    | none => none
    | some v => if 1 ≤ v ∧ v ≤ hi then some v else none

/-- Python `datetime.strptime(visit_date_str, "%Y.%m.%d").date()` wrapped in
`try/except`: `none` both when the field is absent / not a string (a
`TypeError`, caught) and when parsing or calendar validation fails
(a `ValueError`, caught).  A year of `0000` is rejected because
`datetime`'s `MINYEAR` is 1. -/
def parseDate (s? : Option String) : Option Nat :=
  match s? with
  | none => none
  | some s =>
    match splitDots s.data with
    | [ys, ms, ds] =>
      match parse4 ys, parse2 ms 12, parse2 ds 31 with
      | some y, some m, some d =>
        if 1 ≤ y ∧ d ≤ daysInMonth y m then some (civil y m d) else none
      | _, _, _ => none
    | _ => none

/-! ## Raw server data and the reservation record built by `get_reservations` -/

/-- One element of a page's `reserveList`, as JSON.  An `Option` field is
`none` when the key is absent or its value is `null` (both read back as a
falsy/`None` value through `.get`); `days` keeps the two cases apart
because `item.get("days", 1)` defaults only a missing key. -/
structure RawItem where
  visitReserveIdx : Option Int
  carNo : Option String
  visitDate : Option String
  purpose : Option String
  phone : Option String
  /-- `none` = key absent (defaults to `1`); `some none` = present `null`;
  `some (some n)` = present integer `n`. -/
  days : Option (Option Int)
deriving DecidableEq, Repr

/-- The dict appended to `reservations` by `get_reservations`. -/
structure Reservation where
  idx : Option Int
  carNo : Option String
  visitDate : Nat
  visitDateStr : Option String
  purpose : Option String
  phone : Option String
  /-- The stored `item.get("days", 1)`: `none` when the server sent `null`. -/
  days : Option Int
deriving DecidableEq, Repr

/-- The parsed JSON body returned by `_request` for one reservation page. -/
structure PageData where
  /-- `none` = key absent, `some none` = `null`, `some (some n)` = integer. -/
  totalPages : Option (Option Int)
  reserveList : List RawItem
deriving DecidableEq, Repr

/-- Python `int(data.get("totalPages", 1) or 1)`: a missing key, `null`
or `0` all become `1`. -/
def effTotalPages (p : PageData) : Int :=
  match p.totalPages with
  | none => 1
  | some none => 1
  | some (some n) => if n = 0 then 1 else n

/-- The body of the `for item in data.get("reserveList", [])` loop for one
item: parse the visit date (skip the item when that raises), keep the item
when its date is today or later. -/
def processItem (today : Nat) (item : RawItem) : Option Reservation :=
  match parseDate item.visitDate with
  | none => none
  | some vd =>
    if today ≤ vd then
      some { idx := item.visitReserveIdx
             carNo := item.carNo
             visitDate := vd
             visitDateStr := item.visitDate
             purpose := item.purpose
             phone := item.phone
             days := match item.days with | none => some 1 | some v => v }
    else none

/-- All reservation dicts collected from one page's `reserveList`. -/
def processPage (today : Nat) (items : List RawItem) : List Reservation :=
  items.filterMap (processItem today)

/-! ## Errors raised by the client

Each constructor records one `raise` site (or uncaught library exception)
of `aptner_api.py` together with the data interpolated into its message. -/

/-- The exceptions `get_reservations` / `_request` / `authenticate` can raise. -/
inductive PyErr where
  /-- `AptnerAuthError(f"Authentication failed: {status} - {text}")`. -/
  | authFailed (status : Int) (text : String)
  /-- `AptnerAuthError("Failed to obtain accessToken")` — a fixed message. -/
  | authNoToken
  /-- `AptnerError(f"Request failed: {status} - {text}")`. -/
  | requestFailed (status : Int) (text : String)
  /-- an uncaught `resp.json()` decode error inside `authenticate`. -/
  | jsonDecodeError
  /-- `TypeError` from ordering `None` against a `str` inside `list.sort`. -/
  | typeError
deriving DecidableEq, Repr

/-! ## The pagination loop of `get_reservations`

`server page` is the parsed JSON body that `self._request("GET",
f"/pc/reserves?pg={page}")` returns for that page; a `_request` that
raises instead aborts the whole fetch (its exception propagates, see
`_request` below), so successful executions of the loop are exactly the
runs against some such total `server`.  The loop is embedded with a fuel
argument; started with fuel 51 the fuel never runs out, because the
source breaks at `current_page >= 50`. -/

/-- The `while current_page < total_pages` loop: returns the collected
reservation dicts and the list of page numbers requested, in order. -/
def fetchLoop (server : Nat → PageData) (today : Nat) :
    Nat → Nat → Int → List Reservation × List Nat
  | 0, _, _ => ([], [])
  | fuel + 1, current, total =>
    if (current : Int) < total then
      let page := current + 1
      let data := server page
      let total' := if page = 1 then effTotalPages data else total
      let items := processPage today data.reserveList
      if 50 ≤ page then (items, [page])
      else
        let rest := fetchLoop server today fuel page total'
        (items ++ rest.1, page :: rest.2)
    else ([], [])

/-- The loop as entered by `get_reservations`: `current_page = 0`,
`total_pages = 1`. -/
def fetchResult (server : Nat → PageData) (today : Nat) :
    List Reservation × List Nat :=
  fetchLoop server today 51 0 1

/-- The page numbers `get_reservations` requests, in request order. -/
def requestedPages (server : Nat → PageData) (today : Nat) : List Nat :=
  (fetchResult server today).2

/-! ## The final sort of `get_reservations`

`reservations.sort(key=lambda x: (x["visitDate"], x["carNo"]))` is a
stable sort comparing key tuples with Python `<`.  Comparing the dates is
total; when the dates are equal the `carNo` components are compared, and
ordering `None` against a `str` raises `TypeError`.  The sort is embedded
as a stable insertion sort over `Except`, performing exactly those key
comparisons. -/

/-- Python `<` on the key tuples `(visitDate, carNo)`: an `Except` because
`None < "…"` (and symmetrically) raises `TypeError`. -/
def ltKeyE (a b : Reservation) : Except PyErr Bool :=
  if a.visitDate < b.visitDate then .ok true
  else if b.visitDate < a.visitDate then .ok false
  else
    match a.carNo, b.carNo with
    | none, none => .ok false
    | some x, some y => .ok (decide (x < y))
    | _, _ => .error .typeError

/-- Stable insertion of a later element into a sorted prefix: the element
moves before `b` only when strictly smaller, so ties keep input order. -/
def insertE (a : Reservation) : List Reservation → Except PyErr (List Reservation)
  | [] => .ok [a]
  | b :: bs =>
    match ltKeyE a b with
    | .error e => .error e
    | .ok true => .ok (a :: b :: bs)
    | .ok false =>
      match insertE a bs with
      | .error e => .error e
      | .ok l => .ok (b :: l)

/-- Left-to-right insertion pass: each element is inserted into the sorted
accumulator, propagating the first `TypeError`. -/
def sortFold : List Reservation → List Reservation → Except PyErr (List Reservation)
  | [], acc => .ok acc
  | x :: xs, acc =>
    match insertE x acc with
    | .error e => .error e
    | .ok acc' => sortFold xs acc'

/-- The stable sort by `(visitDate, carNo)`, propagating `TypeError`. -/
def sortByKeyE (l : List Reservation) : Except PyErr (List Reservation) :=
  sortFold l []

/-- `get_reservations`, given today's date and the per-page bodies: collect
pages 1, 2, …, then sort.  The result is the returned list, or the
exception the sort raises. -/
def get_reservations (server : Nat → PageData) (today : Nat) :
    Except PyErr (List Reservation) :=
  sortByKeyE (fetchResult server today).1

/-! ## `get_reserved_dates` -/

/-- Python `r.get("days", 1) or 1` on a stored reservation dict (the key is
always present): `null` and `0` become `1`, every other integer is kept. -/
def effDays (r : Reservation) : Int :=
  match r.days with
  | none => 1
  | some d => if d = 0 then 1 else d

/-- The guard `if car_no and r["carNo"] != car_no: continue`: a `None` or
empty filter keeps every reservation. -/
def keepRes (car_no : Option String) (r : Reservation) : Bool :=
  match car_no with
  | none => true
  | some v => if v = "" then true else r.carNo == some v

/-- The pairs `for d in range(days): reserved.add((r["carNo"], base_date +
timedelta(days=d)))` contributed by one reservation (a negative `days`
leaves `range(days)` empty). -/
def resPairs (r : Reservation) : List (Option String × Nat) :=
  (List.range (effDays r).toNat).map (fun i => (r.carNo, r.visitDate + i))

/-- `get_reserved_dates`, given the reservation list the source refetches
via `get_reservations`.  The Python `set` is modelled by this list up to
membership. -/
def get_reserved_dates (reservations : List Reservation)
    (car_no : Option String) : List (Option String × Nat) :=
  (reservations.filter (keepRes car_no)).flatMap resPairs

/-! ## The GUI's pure logic (`aptner_gui.py`) -/

/-- `new_dates = [d for d in dates if (car_no, d) not in self.reserved_dates]`
in `_register_reservations` (the index holds `(r["carNo"], date)` pairs
whose plate component may be `None`, the GUI's plate is a string). -/
def planSubmission (candidateDates : List Nat) (car_no : String)
    (reserved : List (Option String × Nat)) : List Nat :=
  candidateDates.filter (fun d => decide ((some car_no, d) ∉ reserved))

/-- The `while current <= end_date` walk of `_get_schedule_dates`, with
`count` remaining days (`end_date - current + 1` at entry). -/
def scheduleLoop (selected : List Nat) : Nat → Nat → List Nat
  | 0, _ => []
  | count + 1, current =>
    if weekday current ∈ selected then
      current :: scheduleLoop selected count (current + 1)
    else scheduleLoop selected count (current + 1)

/-- `_get_schedule_dates`, with the checked weekday indices, the week
count and `date.today()` as the anchor.  `end_date = today +
timedelta(weeks=weeks)`, so the walk covers `7 * weeks + 1` days. -/
def get_schedule_dates (selected : List Nat) (weeks : Nat) (today : Nat) :
    List Nat :=
  if selected.isEmpty then []
  else scheduleLoop selected (7 * weeks + 1) today

/-! ## The session: `authenticate` and `_request`

The transport is an oracle: `authResp i` is the identity endpoint's reply
to the i-th `session.post` of `authenticate`, and `reqResp i req` the
reply to the i-th `session.request` issued by `_request`, which sees the
full request `req` (method, path, JSON body, bearer token).  The client
state carries the stored token, the count of `authenticate` calls and the
log of transport requests issued by `_request`, so that "exactly one
re-authentication and one retry" is a statement about counts and logs. -/

/-- The only JSON body the client ever sends: the reservation payload. -/
structure Payload where
  visitDate : String
  purpose : String
  carNo : String
  days : Int
  phone : String
deriving DecidableEq, Repr

/-- One `session.request` as issued by `_request`. -/
structure Req where
  method : String
  path : String
  body : Option Payload
  token : String
deriving DecidableEq, Repr

/-- A transport response whose body parses to `β` — `json = none` models a
body that `resp.json()` fails to decode. -/
structure Response (β : Type) where
  status : Int
  text : String
  json : Option β
deriving DecidableEq, Repr

/-- The identity endpoint's reply: `jsonData = none` is an undecodable
body, `some none` a decoded body whose `accessToken` is absent or `null`,
`some (some t)` a decoded body with `accessToken` the string `t`. -/
structure AuthResponse where
  status : Int
  text : String
  jsonData : Option (Option String)
deriving DecidableEq, Repr

/-- Mutable client state: `self._token` plus instrumentation (how many
`authenticate` calls ran, which transport requests `_request` issued). -/
structure ClientState where
  token : Option String
  authCount : Nat
  reqLog : List Req
deriving DecidableEq, Repr

/-- The remote service, as the two oracles the session consults. -/
structure Env (β : Type) where
  authResp : Nat → AuthResponse
  reqResp : Nat → Req → Response β

/-- Python truthiness of `self._token`: `not self._token` holds for `None`
and for the empty string. -/
def tokenFalsy : Option String → Bool
  | none => true
  | some t => t = ""

/-- `authenticate()`: post the credentials, fail on status ≥ 400 (with the
status and body in the message), on an undecodable body, and on a falsy
`accessToken` field (fixed message); otherwise store the token. -/
def authenticate (env : Env β) (s : ClientState) : Except PyErr ClientState :=
  let resp := env.authResp s.authCount
  let s' : ClientState := { s with authCount := s.authCount + 1 }
  if 400 ≤ resp.status then .error (.authFailed resp.status resp.text)
  else
    match resp.jsonData with
    | none => .error .jsonDecodeError
    | some none => .error .authNoToken
    | some (some t) =>
      if t = "" then .error .authNoToken
      else .ok { s' with token := some t }

/-- The opening `if not self._token: self.authenticate()` of `_request`. -/
def ensureToken (env : Env β) (s : ClientState) : Except PyErr ClientState :=
  if tokenFalsy s.token then authenticate env s else .ok s

/-- `_request(method, path, json_data)`: ensure a token, issue the request
with it; on a 401 re-authenticate once and retry the same request with
the refreshed token; then raise on status ≥ 400, else return the decoded
body, or `emptyD` (Python `{}`) when decoding fails. -/
def request_ (emptyD : β) (env : Env β) (method path : String)
    (body : Option Payload) (s : ClientState) : Except PyErr (ClientState × β) :=
  match ensureToken env s with
  | .error e => .error e
  | .ok s1 =>
    let req1 : Req := ⟨method, path, body, s1.token.getD ""⟩
    let r1 := env.reqResp s1.reqLog.length req1
    let s2 : ClientState := { s1 with reqLog := s1.reqLog ++ [req1] }
    if r1.status = 401 then
      match authenticate env s2 with
      | .error e => .error e
      | .ok s3 =>
        let req2 : Req := ⟨method, path, body, s3.token.getD ""⟩
        let r2 := env.reqResp s3.reqLog.length req2
        let s4 : ClientState := { s3 with reqLog := s3.reqLog ++ [req2] }
        if 400 ≤ r2.status then .error (.requestFailed r2.status r2.text)
        else .ok (s4, r2.json.getD emptyD)
    else
      if 400 ≤ r1.status then .error (.requestFailed r1.status r1.text)
      else .ok (s2, r1.json.getD emptyD)

/-- `MAX_DAYS_PER_RESERVATION` of `aptner_api.py`. -/
def MAX_DAYS_PER_RESERVATION : Int := 30

/-- The clamp at the top of `reserve_car`. -/
def clampDays (days : Int) : Int :=
  if days < 1 then 1
  else if MAX_DAYS_PER_RESERVATION < days then MAX_DAYS_PER_RESERVATION
  else days

/-- The payload dict `reserve_car` builds. -/
def reservePayload (car_no : String) (visit_date : Nat) (phone purpose : String)
    (days : Int) : Payload :=
  { visitDate := dateToStr visit_date
    purpose := purpose
    carNo := car_no
    days := clampDays days
    phone := phone }

/-- `reserve_car(car_no, visit_date, phone, purpose, days)`. -/
def reserve_car (emptyD : β) (env : Env β) (car_no : String) (visit_date : Nat)
    (phone purpose : String) (days : Int) (s : ClientState) :
    Except PyErr (ClientState × β) :=
  request_ emptyD env "POST" "/pc/reserve/"
    (some (reservePayload car_no visit_date phone purpose days)) s

/-- `delete_reservation(idx)`. -/
def delete_reservation (emptyD : β) (env : Env β) (idx : Int) (s : ClientState) :
    Except PyErr (ClientState × β) :=
  request_ emptyD env "DELETE" ("/pc/reserve/" ++ toString idx) none s

/-- The carNo component of the sort key, as a (partial) order: defined only
when both plates are `None` or both are strings — `carLeB` is the `≤` that
`ltKeyE` decides on the pairs it can compare. -/
def carLeB : Option String → Option String → Bool
  | none, none => true
  | some x, some y => decide (x ≤ y)
  | _, _ => false

/-- The ordering `reservations.sort` establishes: visit date ascending,
ties broken by vehicle plate ascending. -/
def keyLeB (a b : Reservation) : Bool :=
  decide (a.visitDate < b.visitDate) ||
    (decide (a.visitDate = b.visitDate) && carLeB a.carNo b.carNo)

/-- `keyLeB` as a proposition. -/
def keyLe (a b : Reservation) : Prop := keyLeB a b = true

/-- Equality of `Except` values is decidable componentwise (used to
evaluate the embedded client on concrete inputs). -/
instance {ε α : Type} [DecidableEq ε] [DecidableEq α] : DecidableEq (Except ε α) := fun x y =>
  match x, y with
  | .ok a, .ok b => if h : a = b then isTrue (by rw [h]) else isFalse (by simp [h])
  | .error e, .error f => if h : e = f then isTrue (by rw [h]) else isFalse (by simp [h])
  | .ok _, .error _ => isFalse (by simp)
  | .error _, .ok _ => isFalse (by simp)

/-! ## Schedule expansion: supporting lemmas -/

lemma scheduleLoop_mem (sel : List Nat) :
    ∀ (n : Nat) (cur d : Nat), d ∈ scheduleLoop sel n cur ↔
      cur ≤ d ∧ d < cur + n ∧ weekday d ∈ sel := by
  intro n
  induction n with
  | zero =>
    intro cur d
    simp only [scheduleLoop, List.not_mem_nil, false_iff]
    rintro ⟨h1, h2, _⟩
    omega
  | succ n ih =>
    intro cur d
    simp only [scheduleLoop]
    by_cases h : weekday cur ∈ sel
    · rw [if_pos h, List.mem_cons, ih]
      constructor
      · rintro (rfl | ⟨h1, h2, h3⟩)
        · exact ⟨Nat.le_refl _, by omega, h⟩
        · exact ⟨by omega, by omega, h3⟩
      · rintro ⟨h1, h2, h3⟩
        rcases Nat.eq_or_lt_of_le h1 with heq | hlt
        · exact Or.inl heq.symm
        · exact Or.inr ⟨hlt, by omega, h3⟩
    · rw [if_neg h, ih]
      constructor
      · rintro ⟨h1, h2, h3⟩
        exact ⟨by omega, by omega, h3⟩
      · rintro ⟨h1, h2, h3⟩
        have hne : cur ≠ d := by
          rintro rfl
          exact h h3
        exact ⟨by omega, by omega, h3⟩

lemma scheduleLoop_pairwise (sel : List Nat) :
    ∀ (n : Nat) (cur : Nat), (scheduleLoop sel n cur).Pairwise (· < ·) := by
  intro n
  induction n with
  | zero => intro cur; simp [scheduleLoop]
  | succ n ih =>
    intro cur
    simp only [scheduleLoop]
    by_cases h : weekday cur ∈ sel
    · rw [if_pos h]
      refine List.Pairwise.cons ?_ (ih (cur + 1))
      intro b hb
      have := (scheduleLoop_mem sel n (cur + 1) b).1 hb
      omega
    · rw [if_neg h]
      exact ih (cur + 1)

/-- C4: with an empty weekday selection the schedule expansion returns `[]`
(not an error); with a non-empty selection it returns, in strictly
ascending order, exactly the dates `d` with `today ≤ d ≤ today + 7*weeks`
whose weekday is selected; and the concrete instance weekdays = {Monday,
Wednesday} (indices 0 and 2), weeks = 1, anchor = 2024-01-01 (a Monday)
yields exactly [2024-01-01, 2024-01-03, 2024-01-08]. -/
theorem c4_schedule_expansion (selected : List Nat) (weeks : Nat) (today : Nat) :
    (selected = [] → get_schedule_dates selected weeks today = []) ∧
    (selected ≠ [] →
      (get_schedule_dates selected weeks today).Pairwise (· < ·) ∧
      ∀ d, d ∈ get_schedule_dates selected weeks today ↔
        today ≤ d ∧ d ≤ today + 7 * weeks ∧ weekday d ∈ selected) ∧
    get_schedule_dates [0, 2] 1 (civil 2024 1 1) =
      [civil 2024 1 1, civil 2024 1 3, civil 2024 1 8] := by
  refine ⟨?_, ?_, by decide⟩
  · intro h
    simp [get_schedule_dates, h]
  · intro h
    have hne : ¬selected.isEmpty := by
      simpa [List.isEmpty_iff] using h
    refine ⟨?_, ?_⟩
    · rw [get_schedule_dates, if_neg hne]
      exact scheduleLoop_pairwise selected (7 * weeks + 1) today
    · intro d
      rw [get_schedule_dates, if_neg hne, scheduleLoop_mem]
      constructor
      · rintro ⟨h1, h2, h3⟩
        exact ⟨h1, by omega, h3⟩
      · rintro ⟨h1, h2, h3⟩
        exact ⟨h1, by omega, h3⟩

/-- C4 witness: the non-empty branch of `c4_schedule_expansion` at the
concrete schedule of the spec's test. -/
theorem c4_witness :
    (get_schedule_dates [0, 2] 1 (civil 2024 1 1)).Pairwise (· < ·) :=
  ((c4_schedule_expansion [0, 2] 1 (civil 2024 1 1)).2.1 (by decide)).1

/-- C3: `planSubmission` keeps order (its result is a sublist of the
candidates), keeps exactly the candidate dates whose `(vehicle, date)`
pair is absent from the reserved index (stated both as a membership
characterisation and as a count identity), and is idempotent. -/
theorem c3_plan_submission (dates : List Nat) (car_no : String)
    (reserved : List (Option String × Nat)) :
    (planSubmission dates car_no reserved).Sublist dates ∧
    (∀ d, d ∈ planSubmission dates car_no reserved ↔
      d ∈ dates ∧ (some car_no, d) ∉ reserved) ∧
    (∀ d, (planSubmission dates car_no reserved).count d =
      if (some car_no, d) ∈ reserved then 0 else dates.count d) ∧
    planSubmission (planSubmission dates car_no reserved) car_no reserved =
      planSubmission dates car_no reserved := by
  refine ⟨List.filter_sublist _, ?_, ?_, ?_⟩
  · intro d
    rw [planSubmission, List.mem_filter]
    simp
  · intro d
    by_cases h : (some car_no, d) ∈ reserved
    · rw [if_pos h, List.count_eq_zero, planSubmission, List.mem_filter]
      simp [h]
    · rw [if_neg h]
      exact List.count_filter (by simp [h])
  · apply List.filter_eq_self.2
    intro a ha
    exact (List.mem_filter.1 ha).2

/-- C3 witness: `c3_plan_submission` at a concrete plan — date 20 is
reserved for the vehicle, so exactly dates 10 and 30 remain. -/
theorem c3_witness :
    10 ∈ planSubmission [10, 20, 30] "77ga7777" [(some "77ga7777", 20)] ∧
    ¬20 ∈ planSubmission [10, 20, 30] "77ga7777" [(some "77ga7777", 20)] := by
  constructor
  · exact ((c3_plan_submission [10, 20, 30] "77ga7777" [(some "77ga7777", 20)]).2.1 10).2
      ⟨by decide, by decide⟩
  · intro hmem
    have := ((c3_plan_submission [10, 20, 30] "77ga7777" [(some "77ga7777", 20)]).2.1 20).1 hmem
    exact this.2 (by decide)

/-! ## The reserved-date index: supporting lemma -/

lemma resPairs_mem (r : Reservation) (v : Option String) (d : Nat) :
    (v, d) ∈ resPairs r ↔
      v = r.carNo ∧ ∃ i : Nat, (i : Int) < effDays r ∧ d = r.visitDate + i := by
  simp only [resPairs, List.mem_map, List.mem_range]
  constructor
  · rintro ⟨i, hi, heq⟩
    rw [Prod.mk.injEq] at heq
    exact ⟨heq.1.symm, i, Int.lt_toNat.1 hi, heq.2.symm⟩
  · rintro ⟨rfl, i, hi, rfl⟩
    exact ⟨i, Int.lt_toNat.2 hi, rfl⟩

/-- C1 counterexample: a reservation whose day-span is `-1` contributes no
pair at all — in particular not the single pair `(V, D)` the claim requires
for a day-span `≤ 0` (`range(-1)` is empty, it is not treated as `1`). -/
theorem c1_counterexample :
    get_reserved_dates
        [⟨none, some "11ga1111", 1000, some "2030.01.01", none, none, some (-1)⟩]
        none = [] ∧
    (some "11ga1111", (1000 : Nat)) ∉
      get_reserved_dates
        [⟨none, some "11ga1111", 1000, some "2030.01.01", none, none, some (-1)⟩]
        none := by
  exact ⟨by decide, by decide⟩

/-- C1 (amended): a pair `(v, d)` is in the index built by
`get_reserved_dates` iff some kept reservation has plate `v` and either a
day-span `N ≥ 1` with `d` among `D, D+1, …, D+N-1`, or a day-span that is
absent/`null` or `0` (treated as 1) with `d = D`.  A negative day-span
contributes no pair (the claim's "treated as 1" holds only for day-span
`0` or absent, not for negative values). -/
theorem c1_reserved_index (reservations : List Reservation) (filt : Option String)
    (v : Option String) (d : Nat) :
    (v, d) ∈ get_reserved_dates reservations filt ↔
      ∃ r ∈ reservations, keepRes filt r = true ∧ v = r.carNo ∧
        ((∃ N : Int, r.days = some N ∧ 1 ≤ N ∧
            ∃ i : Nat, (i : Int) < N ∧ d = r.visitDate + i) ∨
         ((r.days = none ∨ r.days = some 0) ∧ d = r.visitDate)) := by
  rw [get_reserved_dates, List.mem_flatMap]
  constructor
  · rintro ⟨r, hr, hp⟩
    have hm := List.mem_filter.1 hr
    obtain ⟨hv, i, hi, hd⟩ := (resPairs_mem r v d).1 hp
    refine ⟨r, hm.1, hm.2, hv, ?_⟩
    rcases hdays : r.days with _ | N
    · simp only [effDays, hdays] at hi
      exact Or.inr ⟨Or.inl rfl, by omega⟩
    · by_cases h0 : N = 0
      · subst h0
        simp only [effDays, hdays, if_pos rfl] at hi
        exact Or.inr ⟨Or.inr rfl, by omega⟩
      · simp only [effDays, hdays, if_neg h0] at hi
        exact Or.inl ⟨N, rfl, by omega, i, hi, hd⟩
  · rintro ⟨r, hr, hk, rfl, hcase⟩
    refine ⟨r, List.mem_filter.2 ⟨hr, hk⟩, (resPairs_mem r _ d).2 ⟨rfl, ?_⟩⟩
    rcases hcase with ⟨N, hdays, hN, i, hi, hd⟩ | ⟨hdays, hd⟩
    · refine ⟨i, ?_, hd⟩
      simp only [effDays, hdays, if_neg (by omega : ¬N = 0)]
      exact hi
    · rcases hdays with h | h
      · exact ⟨0, by simp only [effDays, h]; norm_num, by omega⟩
      · exact ⟨0, by simp only [effDays, h, if_pos rfl]; norm_num, by omega⟩

/-- C1 witness: the amended characterisation at a concrete two-day
reservation — day `101 = 100 + 1` is indexed for plate `A`. -/
theorem c1_witness :
    ((some "A" : Option String), (101 : Nat)) ∈
      get_reserved_dates [⟨none, some "A", 100, some "s", none, none, some 2⟩] none := by
  refine (c1_reserved_index _ none (some "A") 101).2
    ⟨⟨none, some "A", 100, some "s", none, none, some 2⟩, by decide, by decide, rfl, ?_⟩
  exact Or.inl ⟨2, rfl, by decide, 1, by decide, rfl⟩

/-! ## Pagination: supporting lemmas -/

/-- One unfolding of the `while` loop (its definitional equation). -/
lemma fetchLoop_succ_eq (server : Nat → PageData) (today : Nat)
    (fuel current : Nat) (total : Int) :
    fetchLoop server today (fuel + 1) current total =
      if (current : Int) < total then
        let page := current + 1
        let data := server page
        let total' := if page = 1 then effTotalPages data else total
        let items := processPage today data.reserveList
        if 50 ≤ page then (items, [page])
        else
          let rest := fetchLoop server today fuel page total'
          (items ++ rest.1, page :: rest.2)
      else ([], []) := rfl

/-- After page 1 has fixed the page count, the loop requests exactly the
pages `current+1, …, min total 50`, in ascending order. -/
lemma fetchLoop_pages (server : Nat → PageData) (today : Nat) :
    ∀ (fuel current : Nat) (total : Int), 1 ≤ current → current ≤ 49 →
      50 ≤ fuel + current →
      (fetchLoop server today fuel current total).2 =
        List.range' (current + 1) ((min total 50).toNat - current) := by
  intro fuel
  induction fuel with
  | zero =>
    intro current total h1 h2 h3
    omega
  | succ fuel ih =>
    intro current total h1 h2 h3
    rw [fetchLoop_succ_eq]
    by_cases hlt : (current : Int) < total
    · rw [if_pos hlt]
      have hmt1 : (current : Int) + 1 ≤ min total 50 := by
        apply le_min (by omega)
        omega
      have hmt : current + 1 ≤ (min total 50).toNat := by
        rw [Int.le_toNat (by omega)]
        exact_mod_cast hmt1
      by_cases hbr : 50 ≤ current + 1
      · have hc : current = 49 := by omega
        subst hc
        rw [if_pos hbr]
        have : (min total 50).toNat = 50 := by omega
        rw [this]
        rfl
      · rw [if_neg hbr]
        have hne : ¬(current + 1 = 1) := by omega
        simp only [if_neg hne]
        rw [ih (current + 1) total (by omega) (by omega) (by omega)]
        have hsub : (min total 50).toNat - current = ((min total 50).toNat - (current + 1)) + 1 := by
          omega
        rw [hsub, List.range'_succ]
    · rw [if_neg hlt]
      have : (min total 50).toNat ≤ current := by
        have htc : total ≤ (current : Int) := Int.not_lt.1 hlt
        have := min_le_left total 50
        omega
      rw [Nat.sub_eq_zero_of_le this]
      rfl

/-- C5: `get_reservations` requests pages `1, 2, …` in order; with the
total-page count `N` that page 1 reports it requests exactly
`min N 50` pages when `N ≥ 1` (so exactly `N` when `1 ≤ N ≤ 50`), and it
never requests more than 50 pages.  The loop is a total function of the
per-page responses, so every fetch terminates. -/
theorem c5_pagination (server : Nat → PageData) (today : Nat) (N : Int)
    (hN : effTotalPages (server 1) = N) :
    requestedPages server today = 1 :: List.range' 2 ((min N 50).toNat - 1) ∧
    (requestedPages server today).length ≤ 50 ∧
    (1 ≤ N → N ≤ 50 → requestedPages server today = List.range' 1 N.toNat) := by
  have hstep : requestedPages server today = 1 :: (fetchLoop server today 50 1 N).2 := by
    rw [requestedPages, fetchResult, show (51 : Nat) = 50 + 1 from rfl, fetchLoop_succ_eq]
    rw [if_pos (show ((0 : Nat) : Int) < 1 by norm_num)]
    dsimp only
    norm_num [hN]
  have hrec := fetchLoop_pages server today 50 1 N (by omega) (by omega) (by omega)
  rw [hstep, hrec]
  refine ⟨rfl, ?_, ?_⟩
  · have hmt : (min N 50).toNat ≤ 50 := by
      have := min_le_right N 50
      omega
    simp only [List.length_cons, List.length_range']
    omega
  · intro h1 h50
    have hmin : min N 50 = N := min_eq_left h50
    rw [hmin]
    have hsplit : N.toNat = (N.toNat - 1) + 1 := by omega
    conv_rhs => rw [hsplit, List.range'_succ]

/-- C5 witness: a server whose page 1 reports `totalPages = 3` receives
exactly the page requests `[1, 2, 3]`. -/
theorem c5_witness :
    requestedPages (fun _ => ⟨some (some 3), []⟩) 0 = [1, 2, 3] := by
  have h := (c5_pagination (fun _ => ⟨some (some 3), []⟩) 0 3 rfl).2.2
    (by decide) (by decide)
  rw [h]
  rfl

/-! ## Sortedness: supporting lemmas -/

lemma carLeB_trans {x y z : Option String} (hxy : carLeB x y = true)
    (hyz : carLeB y z = true) : carLeB x z = true := by
  cases x <;> cases y <;> cases z <;>
    simp only [carLeB, decide_eq_true_eq, Bool.false_eq_true] at *
  all_goals
    first
    | trivial
    | exact hxy.elim
    | exact hyz.elim
    | exact le_trans hxy hyz

lemma keyLe_trans {a b c : Reservation} (hab : keyLe a b) (hbc : keyLe b c) :
    keyLe a c := by
  simp only [keyLe, keyLeB, Bool.or_eq_true, Bool.and_eq_true,
    decide_eq_true_eq] at hab hbc ⊢
  rcases hab with h1 | ⟨h1, hc1⟩ <;> rcases hbc with h2 | ⟨h2, hc2⟩
  · exact Or.inl (lt_trans h1 h2)
  · exact Or.inl (h2 ▸ h1)
  · exact Or.inl (h1 ▸ h2)
  · exact Or.inr ⟨h1.trans h2, carLeB_trans hc1 hc2⟩

instance : IsTrans Reservation keyLe := ⟨fun _ _ _ => keyLe_trans⟩

lemma ltKeyE_ok_true {a b : Reservation} (h : ltKeyE a b = .ok true) :
    keyLe a b := by
  rw [ltKeyE] at h
  by_cases h1 : a.visitDate < b.visitDate
  · simp [keyLe, keyLeB, h1]
  · rw [if_neg h1] at h
    by_cases h2 : b.visitDate < a.visitDate
    · rw [if_pos h2] at h
      cases h
    · rw [if_neg h2] at h
      have heq : a.visitDate = b.visitDate := by omega
      rcases hca : a.carNo with _ | x <;> rcases hcb : b.carNo with _ | y <;>
        rw [hca, hcb] at h
      · cases h
      · cases h
      · cases h
      · simp only [Except.ok.injEq, decide_eq_true_eq] at h
        simp [keyLe, keyLeB, heq, carLeB, hca, hcb, le_of_lt h]

lemma ltKeyE_ok_false {a b : Reservation} (h : ltKeyE a b = .ok false) :
    keyLe b a := by
  rw [ltKeyE] at h
  by_cases h1 : a.visitDate < b.visitDate
  · rw [if_pos h1] at h
    cases h
  · rw [if_neg h1] at h
    by_cases h2 : b.visitDate < a.visitDate
    · simp [keyLe, keyLeB, h2]
    · rw [if_neg h2] at h
      have heq : b.visitDate = a.visitDate := by omega
      rcases hca : a.carNo with _ | x <;> rcases hcb : b.carNo with _ | y <;>
        rw [hca, hcb] at h
      · simp [keyLe, keyLeB, heq, carLeB, hca, hcb]
      · cases h
      · cases h
      · simp only [Except.ok.injEq] at h
        have hle : y ≤ x := not_lt.1 (of_decide_eq_false h)
        simp [keyLe, keyLeB, heq, carLeB, hca, hcb, hle]

lemma insertE_chain (a : Reservation) :
    ∀ (l l' : List Reservation), List.Chain' keyLe l → insertE a l = .ok l' →
      List.Chain' keyLe l' ∧ (l'.head? = some a ∨ l'.head? = l.head?) := by
  intro l
  induction l with
  | nil =>
    intro l' _ h
    simp only [insertE, Except.ok.injEq] at h
    subst h
    exact ⟨List.chain'_singleton a, Or.inl rfl⟩
  | cons b bs ih =>
    intro l' hch h
    rw [insertE] at h
    cases hlt : ltKeyE a b with
    | error e =>
      rw [hlt] at h
      cases h
    | ok c =>
      rw [hlt] at h
      cases c with
      | true =>
        simp only [Except.ok.injEq] at h
        subst h
        refine ⟨List.Chain'.cons' hch ?_, Or.inl rfl⟩
        intro y hy
        simp only [List.head?_cons, Option.mem_def, Option.some.injEq] at hy
        subst hy
        exact ltKeyE_ok_true hlt
      | false =>
        cases hins : insertE a bs with
        | error e =>
          rw [hins] at h
          cases h
        | ok l'' =>
          rw [hins] at h
          simp only [Except.ok.injEq] at h
          subst h
          obtain ⟨hc'', hhead⟩ := ih l'' hch.tail hins
          refine ⟨List.Chain'.cons' hc'' ?_, Or.inr rfl⟩
          intro y hy
          rcases hhead with h1 | h1
          · rw [h1] at hy
            simp only [Option.mem_def, Option.some.injEq] at hy
            subst hy
            exact ltKeyE_ok_false hlt
          · rw [h1] at hy
            exact (List.chain'_cons'.1 hch).1 y hy

lemma sortFold_chain :
    ∀ (l acc out : List Reservation), List.Chain' keyLe acc →
      sortFold l acc = .ok out → List.Chain' keyLe out := by
  intro l
  induction l with
  | nil =>
    intro acc out h hf
    simp only [sortFold, Except.ok.injEq] at hf
    exact hf ▸ h
  | cons x xs ih =>
    intro acc out h hf
    rw [sortFold] at hf
    cases hins : insertE x acc with
    | error e =>
      rw [hins] at hf
      cases hf
    | ok acc' =>
      rw [hins] at hf
      exact ih acc' out (insertE_chain x acc acc' h hins).1 hf

/-- C6: whenever `get_reservations` returns a list (rather than raising),
that list is sorted by visit date ascending with ties broken by vehicle
plate ascending — pairwise, every earlier element is `keyLe` every later
one. -/
theorem c6_sorted (server : Nat → PageData) (today : Nat)
    (l : List Reservation) (h : get_reservations server today = .ok l) :
    l.Pairwise keyLe := by
  rw [get_reservations, sortByKeyE] at h
  exact List.chain'_iff_pairwise.1
    (sortFold_chain (fetchResult server today).1 [] l List.chain'_nil h)

/-- C6 witness: a page whose two raw items arrive in descending date order
is returned sorted ascending. -/
theorem c6_witness :
    List.Pairwise keyLe
      [⟨none, some "B", 741385, some "2030.01.03", none, none, some 1⟩,
       ⟨none, some "A", 741386, some "2030.01.04", none, none, some 1⟩] :=
  c6_sorted
    (fun _ => ⟨some (some 1),
      [⟨none, some "A", some "2030.01.04", none, none, none⟩,
       ⟨none, some "B", some "2030.01.03", none, none, none⟩]⟩)
    0 _ (by decide)

/-! ## Skipping malformed records: supporting lemma -/

/-- Two servers whose pages carry the same page counts and process to the
same reservations drive the loop identically. -/
lemma fetchLoop_congr (s1 s2 : Nat → PageData) (today : Nat)
    (hproc : ∀ q, processPage today (s1 q).reserveList =
      processPage today (s2 q).reserveList)
    (htot : ∀ q, effTotalPages (s1 q) = effTotalPages (s2 q)) :
    ∀ (fuel current : Nat) (total : Int),
      fetchLoop s1 today fuel current total = fetchLoop s2 today fuel current total := by
  intro fuel
  induction fuel with
  | zero => intro current total; rfl
  | succ fuel ih =>
    intro current total
    rw [fetchLoop_succ_eq, fetchLoop_succ_eq]
    by_cases hlt : (current : Int) < total
    · rw [if_pos hlt, if_pos hlt]
      dsimp only
      rw [hproc, htot, ih]
    · rw [if_neg hlt, if_neg hlt]

/-- C7: a raw item whose visit-date string does not parse is skipped
without aborting the fetch — dropping it from its page leaves both the
returned reservation list and the sequence of page requests unchanged, so
every other item of that page and of all other pages is still processed. -/
theorem c7_skip_malformed (server1 server2 : Nat → PageData) (today : Nat)
    (p : Nat) (l1 l2 : List RawItem) (bad : RawItem)
    (hbad : parseDate bad.visitDate = none)
    (h1 : (server1 p).reserveList = l1 ++ bad :: l2)
    (h2 : (server2 p).reserveList = l1 ++ l2)
    (ht : (server1 p).totalPages = (server2 p).totalPages)
    (hrest : ∀ q, q ≠ p → server1 q = server2 q) :
    get_reservations server1 today = get_reservations server2 today ∧
    requestedPages server1 today = requestedPages server2 today := by
  have hitem : processItem today bad = none := by
    rw [processItem, hbad]
  have hproc : ∀ q, processPage today (server1 q).reserveList =
      processPage today (server2 q).reserveList := by
    intro q
    by_cases hq : q = p
    · subst hq
      rw [h1, h2, processPage, processPage, List.filterMap_append,
        List.filterMap_append, List.filterMap_cons, hitem]
    · rw [hrest q hq]
  have htot : ∀ q, effTotalPages (server1 q) = effTotalPages (server2 q) := by
    intro q
    by_cases hq : q = p
    · subst hq
      rw [effTotalPages, effTotalPages, ht]
    · rw [hrest q hq]
  have hcong := fetchLoop_congr server1 server2 today hproc htot 51 0 1
  constructor
  · rw [get_reservations, get_reservations, fetchResult, fetchResult, hcong]
  · rw [requestedPages, requestedPages, fetchResult, fetchResult, hcong]

/-- C7 witness: dropping the record with the unparseable date
`"2030-01-01"` from page 1 changes neither the fetch result nor the
requested pages — the well-formed record on the same page is processed
either way. -/
theorem c7_witness :
    get_reservations
        (fun q => if q = 1 then
          ⟨some (some 1), [⟨none, some "B", some "2030-01-01", none, none, none⟩,
                           ⟨none, some "A", some "2030.01.04", none, none, none⟩]⟩
          else ⟨none, []⟩) 0 =
      get_reservations
        (fun q => if q = 1 then
          ⟨some (some 1), [⟨none, some "A", some "2030.01.04", none, none, none⟩]⟩
          else ⟨none, []⟩) 0 ∧
    requestedPages
        (fun q => if q = 1 then
          ⟨some (some 1), [⟨none, some "B", some "2030-01-01", none, none, none⟩,
                           ⟨none, some "A", some "2030.01.04", none, none, none⟩]⟩
          else ⟨none, []⟩) 0 =
      requestedPages
        (fun q => if q = 1 then
          ⟨some (some 1), [⟨none, some "A", some "2030.01.04", none, none, none⟩]⟩
          else ⟨none, []⟩) 0 := by
  refine c7_skip_malformed _ _ 0 1 []
    [⟨none, some "A", some "2030.01.04", none, none, none⟩]
    ⟨none, some "B", some "2030-01-01", none, none, none⟩
    (by decide) rfl rfl rfl ?_
  intro q hq
  simp [hq]

/-- C10: a server response with two kept items sharing a visit date, one
with a `null` vehicle plate and one with a string plate, makes
`get_reservations` raise `TypeError` in the final sort instead of
returning a list. -/
theorem c10_sort_type_error :
    get_reservations
      (fun _ => ⟨some (some 1),
        [⟨none, none, some "2030.01.05", none, none, none⟩,
         ⟨none, some "11ga1111", some "2030.01.05", none, none, none⟩]⟩) 0 =
    .error .typeError := by decide

/-! ## The session: supporting lemma -/

/-- A successful `authenticate` had a success status, a decoded body with a
non-empty token, and its only state change is the stored token (plus the
call count). -/
lemma authenticate_ok {β : Type} {env : Env β} {s s' : ClientState}
    (h : authenticate env s = .ok s') :
    (env.authResp s.authCount).status < 400 ∧
    ∃ t, t ≠ "" ∧ (env.authResp s.authCount).jsonData = some (some t) ∧
      s' = { s with authCount := s.authCount + 1, token := some t } := by
  simp only [authenticate] at h
  by_cases hst : 400 ≤ (env.authResp s.authCount).status
  · rw [if_pos hst] at h
    cases h
  · rw [if_neg hst] at h
    rcases hj : (env.authResp s.authCount).jsonData with _ | (_ | t)
    · simp only [hj] at h
      cases h
    · simp only [hj] at h
      cases h
    · simp only [hj] at h
      by_cases ht : t = ""
      · rw [if_pos ht] at h
        cases h
      · rw [if_neg ht] at h
        exact ⟨not_le.1 hst, t, ht, rfl, (Except.ok.inj h).symm⟩

/-- C8 (amended): `authenticate` stores the returned token on success; a
response with status ≥ 400 fails with the `AptnerAuthError` that carries
the status and raw body; a success-status response whose decoded body
lacks a (truthy) access-token field fails with the `AptnerAuthError` whose
message is the fixed string `"Failed to obtain accessToken"`, carrying
neither the status nor the body. -/
theorem c8_authenticate (β : Type) (env : Env β) (s : ClientState) :
    (400 ≤ (env.authResp s.authCount).status →
      authenticate env s = .error (.authFailed (env.authResp s.authCount).status
        (env.authResp s.authCount).text)) ∧
    ((env.authResp s.authCount).status < 400 →
      (env.authResp s.authCount).jsonData = some none →
      authenticate env s = .error .authNoToken) ∧
    (∀ t, (env.authResp s.authCount).status < 400 →
      (env.authResp s.authCount).jsonData = some (some t) → t ≠ "" →
      authenticate env s = .ok { s with authCount := s.authCount + 1, token := some t }) := by
  refine ⟨?_, ?_, ?_⟩
  · intro h
    simp only [authenticate]
    rw [if_pos h]
  · intro h hj
    simp only [authenticate]
    rw [if_neg (not_le.mpr h)]
    simp only [hj]
  · intro t h hj ht
    simp only [authenticate]
    rw [if_neg (not_le.mpr h)]
    simp only [hj]
    rw [if_neg ht]

/-- C8 counterexample: on a success-status identity response whose body
decodes but lacks the access token, the raised error is the fixed-message
`authNoToken`, which is not the status-and-body-carrying `authFailed` the
claim requires (for any status and body). -/
theorem c8_counterexample :
    authenticate (⟨fun _ => ⟨200, "raw-body", some none⟩, fun _ _ => ⟨200, "", none⟩⟩ :
        Env Unit) ⟨none, 0, []⟩ = .error .authNoToken ∧
    ∀ (st : Int) (tx : String), PyErr.authNoToken ≠ PyErr.authFailed st tx := by
  exact ⟨rfl, fun st tx h => by cases h⟩

/-- C8 witness: the ≥ 400 branch of `c8_authenticate` at a concrete
rejected login. -/
theorem c8_witness :
    authenticate (⟨fun _ => ⟨500, "boom", none⟩, fun _ _ => ⟨200, "", none⟩⟩ :
        Env Unit) ⟨none, 0, []⟩ = .error (.authFailed 500 "boom") :=
  (c8_authenticate Unit _ _).1 (by decide)

/-- C2: when the first transport response of `_request` is a 401, exactly
one re-authentication runs (the auth-call count rises by one) and exactly
one retry of the original request is issued, carrying the refreshed token;
if the retried response has status ≥ 400 (in particular another 401) the
call fails with the status-and-body-carrying `AptnerError`, consulting the
transport and the identity endpoint no further — the request log of the
final state holds exactly the original request and its single retry. -/
theorem c2_single_retry (β : Type) (emptyD : β) (env : Env β) (m p : String)
    (b : Option Payload) (s s1 s3 : ClientState)
    (hens : ensureToken env s = .ok s1)
    (h401 : (env.reqResp s1.reqLog.length ⟨m, p, b, s1.token.getD ""⟩).status = 401)
    (hauth : authenticate env
      { s1 with reqLog := s1.reqLog ++ [⟨m, p, b, s1.token.getD ""⟩] } = .ok s3) :
    s3.authCount = s1.authCount + 1 ∧
    s3.reqLog = s1.reqLog ++ [⟨m, p, b, s1.token.getD ""⟩] ∧
    (∃ t, t ≠ "" ∧ (env.authResp s1.authCount).jsonData = some (some t) ∧
      s3.token = some t) ∧
    (400 ≤ (env.reqResp s3.reqLog.length ⟨m, p, b, s3.token.getD ""⟩).status →
      request_ emptyD env m p b s =
        .error (.requestFailed
          (env.reqResp s3.reqLog.length ⟨m, p, b, s3.token.getD ""⟩).status
          (env.reqResp s3.reqLog.length ⟨m, p, b, s3.token.getD ""⟩).text)) ∧
    ((env.reqResp s3.reqLog.length ⟨m, p, b, s3.token.getD ""⟩).status < 400 →
      request_ emptyD env m p b s =
        .ok ({ s3 with reqLog := s3.reqLog ++ [⟨m, p, b, s3.token.getD ""⟩] },
          (env.reqResp s3.reqLog.length ⟨m, p, b, s3.token.getD ""⟩).json.getD emptyD)) := by
  obtain ⟨hst, t, ht, hjson, hs3⟩ := authenticate_ok hauth
  have hunfold : request_ emptyD env m p b s =
      (if 400 ≤ (env.reqResp s3.reqLog.length ⟨m, p, b, s3.token.getD ""⟩).status
       then .error (.requestFailed
         (env.reqResp s3.reqLog.length ⟨m, p, b, s3.token.getD ""⟩).status
         (env.reqResp s3.reqLog.length ⟨m, p, b, s3.token.getD ""⟩).text)
       else .ok ({ s3 with reqLog := s3.reqLog ++ [⟨m, p, b, s3.token.getD ""⟩] },
         (env.reqResp s3.reqLog.length ⟨m, p, b, s3.token.getD ""⟩).json.getD emptyD)) := by
    simp only [request_, hens]
    rw [if_pos h401]
    simp only [hauth]
  refine ⟨by rw [hs3], by rw [hs3], ⟨t, ht, by simpa using hjson, by rw [hs3]⟩, ?_, ?_⟩
  · intro h4
    rw [hunfold, if_pos h4]
  · intro h5
    rw [hunfold, if_neg (not_le.mpr h5)]

/-- C2 witness: with a stored token, a first response of 401 and a retry
answered 403, the call raises `AptnerError` with the retry's status and
body after exactly one re-authentication and one retry. -/
theorem c2_witness :
    request_ () (⟨fun _ => ⟨200, "", some (some "tok2")⟩,
        fun n _ => if n = 0 then ⟨401, "unauthorized", none⟩
          else ⟨403, "forbidden", none⟩⟩ : Env Unit)
      "GET" "/pc/reserves?pg=1" none ⟨some "tok1", 0, []⟩ =
    .error (.requestFailed 403 "forbidden") :=
  (c2_single_retry Unit ()
    (⟨fun _ => ⟨200, "", some (some "tok2")⟩,
      fun n _ => if n = 0 then ⟨401, "unauthorized", none⟩
        else ⟨403, "forbidden", none⟩⟩ : Env Unit)
    "GET" "/pc/reserves?pg=1" none
    ⟨some "tok1", 0, []⟩ ⟨some "tok1", 0, []⟩
    ⟨some "tok2", 1, [⟨"GET", "/pc/reserves?pg=1", none, "tok1"⟩]⟩
    rfl rfl rfl).2.2.2.1 (by decide)

/-- C9: when the final response of `_request` has a success status but an
undecodable body, `_request` returns the empty dict `emptyD` instead of
raising — on the direct path and on the 401-retry path alike — and
`reserve_car` / `delete_reservation` are exactly such `_request` calls, so
they can return `{}` for a successful but non-JSON reply. -/
theorem c9_empty_dict (β : Type) (emptyD : β) (env : Env β) (m p : String)
    (b : Option Payload) (s s1 : ClientState)
    (hens : ensureToken env s = .ok s1) :
    ((env.reqResp s1.reqLog.length ⟨m, p, b, s1.token.getD ""⟩).status ≠ 401 →
     (env.reqResp s1.reqLog.length ⟨m, p, b, s1.token.getD ""⟩).status < 400 →
     (env.reqResp s1.reqLog.length ⟨m, p, b, s1.token.getD ""⟩).json = none →
      request_ emptyD env m p b s =
        .ok ({ s1 with reqLog := s1.reqLog ++ [⟨m, p, b, s1.token.getD ""⟩] }, emptyD)) ∧
    ((env.reqResp s1.reqLog.length ⟨m, p, b, s1.token.getD ""⟩).status = 401 →
     ∀ s3, authenticate env
        { s1 with reqLog := s1.reqLog ++ [⟨m, p, b, s1.token.getD ""⟩] } = .ok s3 →
     (env.reqResp s3.reqLog.length ⟨m, p, b, s3.token.getD ""⟩).status < 400 →
     (env.reqResp s3.reqLog.length ⟨m, p, b, s3.token.getD ""⟩).json = none →
      request_ emptyD env m p b s =
        .ok ({ s3 with reqLog := s3.reqLog ++ [⟨m, p, b, s3.token.getD ""⟩] }, emptyD)) ∧
    (∀ car vd ph pu dys,
      reserve_car emptyD env car vd ph pu dys s =
        request_ emptyD env "POST" "/pc/reserve/"
          (some (reservePayload car vd ph pu dys)) s) ∧
    (∀ idx, delete_reservation emptyD env idx s =
      request_ emptyD env "DELETE" ("/pc/reserve/" ++ toString idx) none s) := by
  refine ⟨?_, ?_, fun _ _ _ _ _ => rfl, fun _ => rfl⟩
  · intro hne h4 hjson
    simp only [request_, hens]
    rw [if_neg hne, if_neg (not_le.mpr h4), hjson]
    rfl
  · intro h401 s3 hauth h4 hjson
    simp only [request_, hens]
    rw [if_pos h401]
    simp only [hauth]
    rw [if_neg (not_le.mpr h4), hjson]
    rfl

/-- C9 witness: against a transport that always answers 200 with an
undecodable body, a direct request and a `reserve_car` call both return
the caller's empty dict. -/
theorem c9_witness :
    request_ 7 (⟨fun _ => ⟨200, "", some (some "T")⟩,
        fun _ _ => ⟨200, "success-but-not-json", none⟩⟩ : Env Nat)
      "GET" "/pc/reserves?pg=1" none ⟨some "tok", 0, []⟩ =
      .ok (⟨some "tok", 0, [⟨"GET", "/pc/reserves?pg=1", none, "tok"⟩]⟩, 7) ∧
    reserve_car 7 (⟨fun _ => ⟨200, "", some (some "T")⟩,
        fun _ _ => ⟨200, "success-but-not-json", none⟩⟩ : Env Nat)
      "11ga1111" (civil 2030 1 5) "010-0000-0000" "visit" 2 ⟨some "tok", 0, []⟩ =
      .ok (⟨some "tok", 0, [⟨"POST", "/pc/reserve/",
        some (reservePayload "11ga1111" (civil 2030 1 5) "010-0000-0000" "visit" 2),
        "tok"⟩]⟩, 7) := by
  constructor
  · exact (c9_empty_dict Nat 7 _ "GET" "/pc/reserves?pg=1" none
      ⟨some "tok", 0, []⟩ ⟨some "tok", 0, []⟩ rfl).1 (by decide) (by decide) rfl
  · have h := c9_empty_dict Nat 7
      (⟨fun _ => ⟨200, "", some (some "T")⟩,
        fun _ _ => ⟨200, "success-but-not-json", none⟩⟩ : Env Nat)
      "POST" "/pc/reserve/"
      (some (reservePayload "11ga1111" (civil 2030 1 5) "010-0000-0000" "visit" 2))
      ⟨some "tok", 0, []⟩ ⟨some "tok", 0, []⟩ rfl
    rw [h.2.2.1]
    exact h.1 (by decide) (by decide) rfl
